import Mathlib

/-!
# kube-rbac-proxy test infrastructure: resource resolution client and scenario steps

A shallow embedding of

* `vendor/github.com/brancz/uclient/uclient.go` (namespace `Uclient`): the discovery based
  resolution of an `(apiVersion, kind, namespace)` triple to a dynamic resource handle;
* `test/kubetest/kubernetes.go` (namespace `Kubetest`): the setup, condition and check steps of
  the scenario harness.

Conventions of the embedding.

* A Go result `(T, error)` of a library call is an `Except GoError T`; a Go `error` result is an
  `Option GoError` (`none` is `nil`).
* Calls that talk to the cluster or the file system thread an explicit world state `σ`:
  a call is a function `σ → result × σ`.  Nothing is assumed about `σ`.
* Library functions that are not part of the repository (`schema.ParseGroupVersion`,
  `kubernetes.NewForConfig`, `dynamic.NewForConfig`, the YAML decoder, ...) are fields of the
  records `Uclient.Deps` and `Kubetest.Deps`; every theorem quantifies over them.
-/

set_option autoImplicit false

/-! ## Go errors -/

/-- A Go `error` value.  `errorf` is a value freshly built by `fmt.Errorf`, `wrapf` is the result
of `errors.Wrapf cause msg`, and `pkgVar` is the value stored in a package level variable, which
the code compares by identity: it differs from every freshly built error, also from one with the
same text. -/
inductive GoError where
  | errorf (msg : String)
  | wrapf (cause : GoError) (msg : String)
  | pkgVar (msg : String)
  deriving DecidableEq, Repr

namespace GoError

/-- The text of an error, the method `Error()`; `errors.Wrapf` puts its message in front of the
text of the cause, separated by a colon. -/
def Error : GoError → String
  | errorf msg => msg
  | wrapf cause msg => msg ++ ": " ++ cause.Error
  | pkgVar msg => msg

end GoError

/-! ## Kubernetes API types used by the code -/

/-- The type `schema.GroupVersion`. -/
structure GroupVersion where
  Group : String
  Version : String
  deriving DecidableEq, Repr

/-- The type `schema.GroupVersionResource`. -/
structure GroupVersionResource where
  Group : String
  Version : String
  Resource : String
  deriving DecidableEq, Repr

/-- The fields of `metav1.APIResource` the code reads: the plural `Name` and the `Kind`. -/
structure APIResource where
  Name : String
  Kind : String
  deriving DecidableEq, Repr

/-- The type `metav1.APIResourceList`: one entry of the discovery catalog.  The catalog is a
slice of pointers to such entries; they are taken to be non-nil. -/
structure APIResourceList where
  GroupVersion : String
  APIResources : List APIResource
  deriving DecidableEq, Repr

/-- The value of `rest.Config.NegotiatedSerializer`: either the codec the code installs,
`serializer.DirectCodecFactory{CodecFactory: scheme.Codecs}`, or some other one. -/
inductive NegotiatedSerializer where
  | directCodecFactorySchemeCodecs
  | other (tag : Nat)
  deriving DecidableEq, Repr

/-- The fields of `rest.Config` the code touches, and `Host` standing for the connection
parameters it leaves alone. -/
structure Config where
  Host : String
  APIPath : String
  GroupVersion : Option GroupVersion
  NegotiatedSerializer : Option NegotiatedSerializer
  deriving DecidableEq, Repr

/-- A byte slice. -/
abbrev Bytes := List UInt8

/-- The type `corev1.PodPhase`, a string type. -/
abbrev PodPhase := String

/-- The constant `corev1.PodPending`. -/
def PodPending : PodPhase := "Pending"
/-- The constant `corev1.PodRunning`. -/
def PodRunning : PodPhase := "Running"
/-- The constant `corev1.PodSucceeded`. -/
def PodSucceeded : PodPhase := "Succeeded"
/-- The constant `corev1.PodFailed`. -/
def PodFailed : PodPhase := "Failed"
/-- The constant `corev1.PodUnknown`. -/
def PodUnknown : PodPhase := "Unknown"

/-- The constant `corev1.PodReady`, of the string type `corev1.PodConditionType`. -/
def PodReady : String := "Ready"
/-- The constant `corev1.ConditionTrue`, of the string type `corev1.ConditionStatus`. -/
def ConditionTrue : String := "True"
/-- The constant `corev1.ConditionFalse`. -/
def ConditionFalse : String := "False"
/-- The constant `corev1.RestartPolicyNever`. -/
def RestartPolicyNever : String := "Never"

/-- The fields of `corev1.PodCondition` the code reads. -/
structure PodCondition where
  «Type» : String
  Status : String
  deriving DecidableEq, Repr

/-- The type `corev1.PodStatus`, restricted to the fields the code reads. -/
structure PodStatus where
  Phase : PodPhase
  Conditions : List PodCondition
  deriving DecidableEq, Repr

/-- The fields of `metav1.ObjectMeta` the code sets. -/
structure ObjectMeta where
  Name : String
  Namespace : String
  Labels : List (String × String)
  deriving DecidableEq, Repr

/-- The fields of `corev1.Container` the code sets. -/
structure Container where
  Name : String
  Image : String
  Command : List String
  deriving DecidableEq, Repr

/-- The fields of `corev1.PodSpec` the code sets. -/
structure PodSpec where
  Containers : List Container
  RestartPolicy : String
  ServiceAccountName : String
  deriving DecidableEq, Repr

/-- The type `corev1.Pod`. -/
structure Pod where
  ObjectMeta : ObjectMeta
  Spec : PodSpec
  Status : PodStatus
  deriving DecidableEq, Repr

/-- The object carried by a watch event: a pod, or an object of another type (such as the
`metav1.Status` of an error event). -/
inductive EventObject where
  | pod (p : Pod)
  | notAPod
  deriving DecidableEq, Repr

/-- The type `watch.Event`, restricted to the field the code reads. -/
structure WatchEvent where
  Object : EventObject
  deriving DecidableEq, Repr

/-- Modelled from the spec: the type `unstructured.Unstructured` is not part of the sources; a
manifest document "must declare apiVersion, kind, metadata.name, and optionally
metadata.namespace".  The four fields are what `GetAPIVersion`, `GetKind`, `GetNamespace` and
`GetName` return (the empty string for an absent field). -/
structure Unstructured where
  GetAPIVersion : String
  GetKind : String
  GetNamespace : String
  GetName : String
  deriving DecidableEq, Repr

/-! ## Client interfaces -/

/-- The interface `dynamic.ResourceInterface`, restricted to the two methods the code calls.
`Create` stands for `Create(u, metav1.CreateOptions{})`, `Delete` for `Delete(name, nil)`. -/
structure ResourceInterface (σ : Type) where
  Create : Unstructured → σ → Except GoError Unstructured × σ
  Delete : String → σ → Option GoError × σ

/-- The interface `dynamic.NamespaceableResourceInterface`, restricted to `Namespace`. -/
structure NamespaceableResourceInterface (σ : Type) where
  Namespace : String → ResourceInterface σ

/-- The interface `dynamic.Interface`. -/
structure DynamicInterface (σ : Type) where
  Resource : GroupVersionResource → NamespaceableResourceInterface σ

/-- A log stream, an `io.ReadCloser`: what `ioutil.ReadAll` returns on it, the bytes read and an
error. -/
abbrev LogStream (σ : Type) := σ → (Bytes × Option GoError) × σ

/-- The methods of `kubernetes.Interface` the code calls.  `ServerResources` is
`Discovery().ServerResources()`; the others are the methods of `CoreV1().Pods(namespace)`, with
the namespace as first argument: `PodsList` takes the label selector of the list options,
`PodsDelete` is `Delete(name, nil)`, `PodsWatch` takes the metadata of the single object watched
and returns the events that its result channel delivers until it is closed, and `PodsGetLogs`
is `GetLogs(pod, &PodLogOptions{Container: container, Follow: false}).Stream()`. -/
structure KubeInterface (σ : Type) where
  ServerResources : σ → Except GoError (List APIResourceList) × σ
  PodsList : String → String → σ → Except GoError (List Pod) × σ
  PodsCreate : String → Pod → σ → Except GoError Pod × σ
  PodsDelete : String → String → σ → Option GoError × σ
  PodsWatch : String → ObjectMeta → σ → Except GoError (List WatchEvent) × σ
  PodsGetLogs : String → String → String → σ → Except GoError (LogStream σ) × σ

namespace Uclient

/-- The library functions `uclient.go` calls. -/
structure Deps (σ : Type) where
  /-- The function `schema.ParseGroupVersion`. -/
  ParseGroupVersion : String → Except GoError GroupVersion
  /-- The function `kubernetes.NewForConfig`. -/
  kubernetesNewForConfig : Config → Except GoError (KubeInterface σ)
  /-- The function `dynamic.NewForConfig`. -/
  dynamicNewForConfig : Config → Except GoError (DynamicInterface σ)

/-- The type `Client`. -/
structure Client where
  cfg : Config
  deriving DecidableEq, Repr

/-- The function `NewForConfig`. -/
def NewForConfig (cfg : Config) : Client :=
  { cfg := cfg }

/-- The function `setConfigDefaults`: the configuration after the call, or the parse error.
The test of line 99 reads the group and the version through `config.GroupVersion`, which points
to `gv` since line 97. -/
def setConfigDefaults {σ : Type} (d : Deps σ) (groupVersion : String) (config : Config) :
    Except GoError Config :=
  match d.ParseGroupVersion groupVersion with
  | .error err => .error err
  | .ok gv =>
    let config := { config with GroupVersion := some gv }
    let config := { config with APIPath := "/apis" }
    let config :=
      if gv.Group = "" ∧ gv.Version = "v1" then { config with APIPath := "/api" } else config
    let config :=
      { config with NegotiatedSerializer := some .directCodecFactorySchemeCodecs }
    .ok config

/-- The function `newForConfig`; `rest.CopyConfig` is the identity on values. -/
def newForConfig {σ : Type} (d : Deps σ) (groupVersion : String) (c : Config) :
    Except GoError (DynamicInterface σ) :=
  let config := c
  match setConfigDefaults d groupVersion config with
  | .error err => .error err
  | .ok config => d.dynamicNewForConfig config

/-- The inner loop of `getAPIResource`: the first resource of the entry whose `Kind` is `kind`. -/
def getAPIResource.inner (kind : String) : List APIResource → Option APIResource
  | [] => none
  | r :: rs => if r.Kind = kind then some r else getAPIResource.inner kind rs

/-- The outer loop of `getAPIResource`: `some` at the `return` inside the loops, `none` when
the loop runs to its end. -/
def getAPIResource.outer (apiVersion kind : String) :
    List APIResourceList → Option (APIResourceList × APIResource)
  | [] => none
  | apiResourceList :: rest =>
    if apiResourceList.GroupVersion = apiVersion then
      match getAPIResource.inner kind apiResourceList.APIResources with
      | some r => some (apiResourceList, r)
      | none => getAPIResource.outer apiVersion kind rest
    else getAPIResource.outer apiVersion kind rest

/-- The method `getAPIResource`. -/
def getAPIResource {σ : Type} (d : Deps σ) (c : Client) (apiVersion kind : String) (w : σ) :
    Except GoError (APIResourceList × APIResource) × σ :=
  match d.kubernetesNewForConfig c.cfg with
  | .error err => (.error err, w)
  | .ok kclient =>
    match kclient.ServerResources w with
    | (.error err, w1) => (.error err, w1)
    | (.ok apiResourceLists, w1) =>
      match getAPIResource.outer apiVersion kind apiResourceLists with
      | some found => (.ok found, w1)
      | none =>
        (.error (.errorf ("apiVersion " ++ apiVersion ++ " and kind " ++ kind ++
          " not found available in Kubernetes cluster")), w1)

/-- The method `ClientFor`. -/
def ClientFor {σ : Type} (d : Deps σ) (c : Client) (apiVersion kind ns : String)
    (w : σ) : Except GoError (ResourceInterface σ) × σ :=
  match getAPIResource d c apiVersion kind w with
  | (.error err, w1) =>
    (.error (.wrapf err
      ("discovering resource information failed for " ++ kind ++ " in " ++ apiVersion)), w1)
  | (.ok (apiResourceList, apiResource), w1) =>
    match newForConfig d apiResourceList.GroupVersion c.cfg with
    | .error err =>
      (.error (.wrapf err
        ("creating dynamic client failed for " ++ apiResourceList.GroupVersion)), w1)
    | .ok dc =>
      match d.ParseGroupVersion apiResourceList.GroupVersion with
      | .error err =>
        (.error (.wrapf err
          ("parsing GroupVersion failed " ++ apiResourceList.GroupVersion)), w1)
      | .ok gv =>
        let gvr : GroupVersionResource :=
          { Group := gv.Group, Version := gv.Version, Resource := apiResource.Name }
        (.ok ((dc.Resource gvr).Namespace ns), w1)

/-- The method `ForUnstructured`. -/
def ForUnstructured {σ : Type} (d : Deps σ) (c : Client) (u : Unstructured) (w : σ) :
    Except GoError (ResourceInterface σ) × σ :=
  ClientFor d c u.GetAPIVersion u.GetKind u.GetNamespace w

end Uclient

namespace Kubetest

/-- Modelled from the spec: the type `Finalizer` is declared in a file of the package that is not
among the sources; a finalizer is a "no-argument operation that returns a failure indicator".
Here it acts on the world state. -/
abbrev Finalizer (σ : Type) := σ → Option GoError × σ

/-- Modelled from the spec: the type `ScenarioContext` is declared in a file of the package that
is not among the sources; it is "per-run state holding the test's working namespace and an
ordered list of finalizer closures". -/
structure ScenarioContext (σ : Type) where
  Namespace : String
  Finalizers : List (Finalizer σ)

/-- Modelled from the spec: the method `AddFinalizer` is declared in a file of the package that
is not among the sources; the context is "mutated only by appending finalizers". -/
def ScenarioContext.AddFinalizer {σ : Type} (ctx : ScenarioContext σ) (f : Finalizer σ) :
    ScenarioContext σ :=
  { ctx with Finalizers := ctx.Finalizers ++ [f] }

/-- The result of a call that may panic. -/
inductive Outcome (α : Type) where
  | returned (a : α)
  | panicked

/-- The library functions `kubernetes.go` calls, besides the methods of its client argument. -/
structure Deps (σ : Type) where
  /-- The functions called by the resolution client. -/
  uclient : Uclient.Deps σ
  /-- The function `ioutil.ReadFile`. -/
  ReadFile : String → σ → Except GoError Bytes × σ
  /-- Decoding the content with `kubeyaml.NewYAMLOrJSONDecoder(r, r.Len()).Decode(&res)` and
  wrapping the decoded map as `&unstructured.Unstructured{Object: res}`. -/
  Decode : Bytes → Except GoError Unstructured
  /-- The function `wait.Poll`, given the interval and the timeout in nanoseconds. -/
  Poll : Nat → Nat → (σ → (Bool × Option GoError) × σ) → σ → Option GoError × σ

/-- The body of the loop of `CreatedManifests` for one path: the error it returns with, or the
finalizer it registers. -/
def CreatedManifests.body {σ : Type} (d : Deps σ) (client : Uclient.Client) (path : String)
    (w : σ) : Except GoError (Finalizer σ) × σ :=
  match d.ReadFile path w with
  | (.error err, w1) => (.error err, w1)
  | (.ok content, w1) =>
    if content.length = 0 then
      (.error (.errorf ("manifest has no content: " ++ path)), w1)
    else
      match d.Decode content with
      | .error err => (.error err, w1)
      | .ok u =>
        match Uclient.ForUnstructured d.uclient client u w1 with
        | (.error err, w2) => (.error err, w2)
        | (.ok c, w2) =>
          match c.Create u w2 with
          | (.error err, w3) => (.error err, w3)
          | (.ok _, w3) => (.ok (fun w => c.Delete u.GetName w), w3)

/-- The loop of `CreatedManifests` over the paths. -/
def CreatedManifests.loop {σ : Type} (d : Deps σ) (client : Uclient.Client) :
    List String → ScenarioContext σ → σ → (Option GoError × ScenarioContext σ) × σ
  | [], ctx, w => ((none, ctx), w)
  | path :: rest, ctx, w =>
    match CreatedManifests.body d client path w with
    | (.error err, w1) => ((some err, ctx), w1)
    | (.ok f, w1) => CreatedManifests.loop d client rest (ctx.AddFinalizer f) w1

/-- The function `CreatedManifests`: the `Setup` it returns, as a function of the context and
the world, giving the error returned and the context and the world after the call. -/
def CreatedManifests {σ : Type} (d : Deps σ) (config : Config) (paths : List String)
    (ctx : ScenarioContext σ) (w : σ) : (Option GoError × ScenarioContext σ) × σ :=
  let client := Uclient.NewForConfig config
  CreatedManifests.loop d client paths ctx w

/-- The loop of `podRunningAndReady` over the conditions of a running pod. -/
def podRunningAndReady.conds : List PodCondition → Bool × Option GoError
  | [] => (false, some (.errorf "pod ready condition not found"))
  | cond :: rest =>
    if cond.«Type» ≠ PodReady then podRunningAndReady.conds rest
    else (decide (cond.Status = ConditionTrue), none)

/-- The function `podRunningAndReady`. -/
def podRunningAndReady (pod : Pod) : Bool × Option GoError :=
  if pod.Status.Phase = PodFailed ∨ pod.Status.Phase = PodSucceeded then
    (false, some (.errorf "pod completed"))
  else if pod.Status.Phase = PodRunning then
    podRunningAndReady.conds pod.Status.Conditions
  else (false, none)

/-- The loop of the poll callback of `PodsAreReady` over the listed pods, started with the
counter `runningAndReady`: the error it returns with, or the final counter. -/
def PodsAreReady.count : List Pod → Nat → Except GoError Nat
  | [], runningAndReady => .ok runningAndReady
  | p :: rest, runningAndReady =>
    match podRunningAndReady p with
    | (_, some err) => .error err
    | (isRunningAndReady, none) =>
      PodsAreReady.count rest (if isRunningAndReady then runningAndReady + 1 else runningAndReady)

/-- The poll callback of `PodsAreReady`: one evaluation of the function passed to `wait.Poll`.
The counter is at most the number of listed pods, so it does not overflow. -/
def PodsAreReady.condition {σ : Type} (client : KubeInterface σ) (replicas : Int)
    (labels : String) (ctx : ScenarioContext σ) (w : σ) : (Bool × Option GoError) × σ :=
  match client.PodsList ctx.Namespace labels w with
  | (.error err, w1) => ((false, some (.errorf ("failed to list pods: " ++ err.Error))), w1)
  | (.ok list, w1) =>
    match PodsAreReady.count list 0 with
    | .error err => ((false, some err), w1)
    | .ok runningAndReady =>
      if (runningAndReady : Int) = replicas then ((true, none), w1) else ((false, none), w1)

/-- The function `PodsAreReady`: polling every second for at most one minute. -/
def PodsAreReady {σ : Type} (d : Deps σ) (client : KubeInterface σ) (replicas : Int)
    (labels : String) (ctx : ScenarioContext σ) (w : σ) : Option GoError × σ :=
  d.Poll 1000000000 60000000000 (PodsAreReady.condition client replicas labels ctx) w

/-- The type `RunOptions`. -/
structure RunOptions where
  ServiceAccount : String
  deriving DecidableEq, Repr

/-- The package variable `errRun`. -/
def errRun : GoError := .pkgVar "failed to run"

/-- The function `podLogs`. -/
def podLogs {σ : Type} (client : KubeInterface σ) (ns pod container : String) (w : σ) :
    (Bytes × Option GoError) × σ :=
  match client.PodsGetLogs ns pod container w with
  | (.error err, w1) => (([], some err), w1)
  | (.ok stream, w1) => stream w1

/-- How the loop of `run` over the watch events ends. -/
inductive run.Exit where
  /-- An event carries a failed pod: `return logs, errRun`. -/
  | failed
  /-- An event carries a succeeded pod (`break`), or the channel is closed. -/
  | done
  /-- The type assertion `event.Object.(*corev1.Pod)` fails. -/
  | panic
  deriving DecidableEq, Repr

/-- The loop of `run` over the events of the result channel. -/
def run.loop : List WatchEvent → run.Exit
  | [] => .done
  | event :: rest =>
    match event.Object with
    | .notAPod => .panic
    | .pod pod =>
      if pod.Status.Phase = PodFailed then .failed
      else if pod.Status.Phase = PodSucceeded then .done
      else run.loop rest

/-- The pod `run` builds before it creates it. -/
def run.pod (namespace_ image name : String) (command : List String)
    (opts : Option RunOptions) : Pod :=
  let pod : Pod :=
    { ObjectMeta := { Name := name, Namespace := namespace_, Labels := [("app", name)] }
      Spec :=
        { Containers := [{ Name := name, Image := image, Command := command }]
          RestartPolicy := RestartPolicyNever
          ServiceAccountName := "" }
      Status := { Phase := "", Conditions := [] } }
  match opts with
  | some o => { pod with Spec := { pod.Spec with ServiceAccountName := o.ServiceAccount } }
  | none => pod

/-- The function `run`.  The finalizer it registers reads `ctx.Namespace` when it runs; no
function of the file assigns that field. -/
def run {σ : Type} (client : KubeInterface σ) (ctx : ScenarioContext σ) (image name : String)
    (command : List String) (opts : Option RunOptions) (w : σ) :
    (Outcome (Bytes × Option GoError) × ScenarioContext σ) × σ :=
  let pod := run.pod ctx.Namespace image name command opts
  let ctx := ctx.AddFinalizer (fun w => client.PodsDelete ctx.Namespace pod.ObjectMeta.Name w)
  match client.PodsCreate ctx.Namespace pod w with
  | (.error err, w1) =>
    ((.returned ([], some (.errorf ("failed to create pod: " ++ err.Error))), ctx), w1)
  | (.ok _, w1) =>
    match client.PodsWatch ctx.Namespace pod.ObjectMeta w1 with
    | (.error err, w2) =>
      ((.returned ([], some (.errorf ("failed to watch pod: " ++ err.Error))), ctx), w2)
    | (.ok events, w2) =>
      match run.loop events with
      | .panic => ((.panicked, ctx), w2)
      | .failed =>
        let logs := podLogs client ctx.Namespace name name w2
        ((.returned (logs.1.1, some errRun), ctx), logs.2)
      | .done =>
        let logs := podLogs client ctx.Namespace name name w2
        ((.returned (logs.1.1, none), ctx), logs.2)

/-- The function `RunSucceeds`: the `Check` it returns, as a function of the context, the world
and the bytes written to standard error so far. -/
def RunSucceeds {σ : Type} (client : KubeInterface σ) (image name : String)
    (command : List String) (opts : Option RunOptions) (ctx : ScenarioContext σ) (w : σ)
    (stderr : Bytes) : (Outcome (Option GoError) × ScenarioContext σ) × σ × Bytes :=
  match run client ctx image name command opts w with
  | ((.panicked, ctx1), w1) => ((.panicked, ctx1), w1, stderr)
  | ((.returned (logs, some err), ctx1), w1) => ((.returned (some err), ctx1), w1, stderr ++ logs)
  | ((.returned (_, none), ctx1), w1) => ((.returned none, ctx1), w1, stderr)

/-- The function `RunFails`. -/
def RunFails {σ : Type} (client : KubeInterface σ) (image name : String)
    (command : List String) (opts : Option RunOptions) (ctx : ScenarioContext σ) (w : σ)
    (stderr : Bytes) : (Outcome (Option GoError) × ScenarioContext σ) × σ × Bytes :=
  match run client ctx image name command opts w with
  | ((.panicked, ctx1), w1) => ((.panicked, ctx1), w1, stderr)
  | ((.returned (logs, none), ctx1), w1) =>
    ((.returned (some (.errorf "expected run to fail")), ctx1), w1, stderr ++ logs)
  | ((.returned (_, some err), ctx1), w1) =>
    if err ≠ errRun then ((.returned (some err), ctx1), w1, stderr)
    else ((.returned none, ctx1), w1, stderr)

/-- The manifest at `path` is created, starting in the world `w`: the file is read and is not
empty, its content decodes to a document `u`, the handle `c` of `u` is resolved, and the create
call on `c` succeeds and leaves the world `w3`; `f` is the finalizer that deletes `u` by name
through `c`. -/
def CreatedManifests.Succeeds {σ : Type} (d : Deps σ) (client : Uclient.Client) (path : String)
    (w : σ) (f : Finalizer σ) (w3 : σ) : Prop :=
  ∃ content u c created w1 w2,
    d.ReadFile path w = (.ok content, w1) ∧ content.length ≠ 0 ∧
    d.Decode content = .ok u ∧
    Uclient.ForUnstructured d.uclient client u w1 = (.ok c, w2) ∧
    c.Create u w2 = (.ok created, w3) ∧
    f = fun w => c.Delete u.GetName w

/-- The manifest at `path` fails with the error `err`, starting in the world `w` and leaving the
world `wf`: the file cannot be read; or it is empty; or its content does not decode; or the
handle of the document is not resolved; or the create call fails.  Every case but the second
fails with the error of the failing call. -/
def CreatedManifests.Fails {σ : Type} (d : Deps σ) (client : Uclient.Client) (path : String)
    (w : σ) (err : GoError) (wf : σ) : Prop :=
  d.ReadFile path w = (.error err, wf) ∨
  (∃ content, d.ReadFile path w = (.ok content, wf) ∧ content.length = 0 ∧
    err = .errorf ("manifest has no content: " ++ path)) ∨
  (∃ content, d.ReadFile path w = (.ok content, wf) ∧ content.length ≠ 0 ∧
    d.Decode content = .error err) ∨
  (∃ content u w1, d.ReadFile path w = (.ok content, w1) ∧ content.length ≠ 0 ∧
    d.Decode content = .ok u ∧
    Uclient.ForUnstructured d.uclient client u w1 = (.error err, wf)) ∨
  (∃ content u c w1 w2, d.ReadFile path w = (.ok content, w1) ∧ content.length ≠ 0 ∧
    d.Decode content = .ok u ∧
    Uclient.ForUnstructured d.uclient client u w1 = (.ok c, w2) ∧
    c.Create u w2 = (.error err, wf))

/-- The manifests at `paths` are all created, one after the other, starting in the world `w`:
`fs` are their finalizers, in path order, and `w1` is the world after the last create call. -/
inductive CreatedManifests.Created {σ : Type} (d : Deps σ) (client : Uclient.Client) :
    List String → σ → List (Finalizer σ) → σ → Prop where
  | nil (w : σ) : CreatedManifests.Created d client [] w [] w
  | cons (path : String) (rest : List String) (w w1 w2 : σ) (f : Finalizer σ)
      (fs : List (Finalizer σ)) (hfirst : CreatedManifests.Succeeds d client path w f w1)
      (hrest : CreatedManifests.Created d client rest w1 fs w2) :
      CreatedManifests.Created d client (path :: rest) w (f :: fs) w2

end Kubetest

/-! ## A small cluster on which the definitions are evaluated -/

namespace Example

/-- A resource handle whose creations succeed. -/
def handle : ResourceInterface Unit :=
  { Create := fun u w => (.ok u, w)
    Delete := fun _ w => (none, w) }

/-- A dynamic client that hands out `handle` for every resource. -/
def dynamicClient : DynamicInterface Unit :=
  { Resource := fun _ => { Namespace := fun _ => handle } }

/-- A discovery catalog: `Pod` is served twice under `v1`, and there is an entry whose
group-version has two slashes. -/
def catalog : List APIResourceList :=
  [ { GroupVersion := "v1", APIResources := [{ Name := "services", Kind := "Service" }] },
    { GroupVersion := "apps/v1", APIResources := [{ Name := "deployments", Kind := "Deployment" }] },
    { GroupVersion := "v1",
      APIResources := [{ Name := "configmaps", Kind := "ConfigMap" }, { Name := "pods", Kind := "Pod" },
        { Name := "podsagain", Kind := "Pod" }] },
    { GroupVersion := "v1", APIResources := [{ Name := "podslater", Kind := "Pod" }] },
    { GroupVersion := "a/b/c", APIResources := [{ Name := "widgets", Kind := "Widget" }] } ]

/-- A cluster client: it serves `catalog`, lists the given pods, creates every pod, and its
watch delivers the given events. -/
def kube (pods : List Pod) (events : List WatchEvent) (logs : Bytes) : KubeInterface Unit :=
  { ServerResources := fun w => (.ok catalog, w)
    PodsList := fun _ _ w => (.ok pods, w)
    PodsCreate := fun _ p w => (.ok p, w)
    PodsDelete := fun _ _ w => (none, w)
    PodsWatch := fun _ _ w => (.ok events, w)
    PodsGetLogs := fun _ _ _ w => (.ok (fun w1 => ((logs, none), w1)), w) }

/-- A cluster client that refuses to create pods. -/
def kubeNoCreate : KubeInterface Unit :=
  { kube [] [] [] with PodsCreate := fun _ _ w => (.error (.errorf "forbidden"), w) }

/-- The library functions of the resolution client: the parser knows three group-version
strings and rejects the others. -/
def uclientDeps : Uclient.Deps Unit :=
  { ParseGroupVersion := fun s =>
      if s = "v1" then .ok { Group := "", Version := "v1" }
      else if s = "apps/v1" then .ok { Group := "apps", Version := "v1" }
      else if s = "v2" then .ok { Group := "", Version := "v2" }
      else .error (.errorf ("unexpected GroupVersion string: " ++ s))
    kubernetesNewForConfig := fun _ => .ok (kube [] [] [])
    dynamicNewForConfig := fun _ => .ok dynamicClient }

/-- A base configuration. -/
def config : Config :=
  { Host := "https://cluster", APIPath := "", GroupVersion := none, NegotiatedSerializer := none }

/-- The library functions of the harness: two manifest files with content, of which only the
first decodes to a served kind, and one empty file; the other paths cannot be read. -/
def deps : Kubetest.Deps Unit :=
  { uclient := uclientDeps
    ReadFile := fun path w =>
      if path = "resources/service.yaml" then (.ok [1], w)
      else if path = "resources/job.yaml" then (.ok [2], w)
      else if path = "resources/empty.yaml" then (.ok [], w)
      else (.error (.errorf ("open " ++ path ++ ": no such file or directory")), w)
    Decode := fun content =>
      if content = [1] then
        .ok { GetAPIVersion := "v1", GetKind := "Service", GetNamespace := "default",
              GetName := "kube-rbac-proxy" }
      else if content = [2] then
        .ok { GetAPIVersion := "batch/v1", GetKind := "Job", GetNamespace := "default",
              GetName := "job" }
      else .error (.errorf "could not get version and kind")
    Poll := fun _ _ condition w =>
      match condition w with
      | ((_, some err), w1) => (some err, w1)
      | ((true, none), w1) => (none, w1)
      | ((false, none), w1) => (some (.errorf "timed out waiting for the condition"), w1) }

/-- A scenario context without finalizers. -/
def ctx : Kubetest.ScenarioContext Unit :=
  { Namespace := "default", Finalizers := [] }

/-- A pod in the given phase with the given conditions. -/
def podIn (phase : PodPhase) (conditions : List PodCondition) : Pod :=
  { ObjectMeta := { Name := "p", Namespace := "default", Labels := [] }
    Spec := { Containers := [], RestartPolicy := "Always", ServiceAccountName := "" }
    Status := { Phase := phase, Conditions := conditions } }

/-- A running pod whose only condition is `Ready` with status `True`. -/
def readyPod : Pod := podIn PodRunning [{ «Type» := PodReady, Status := ConditionTrue }]

end Example

/-! ## The resolution client -/

namespace Uclient

/-- C1: when `schema.ParseGroupVersion` accepts the group-version string with result `gv`,
`setConfigDefaults` succeeds; the API path of the resulting configuration is `/api` exactly when
the group of `gv` is empty and its version is `v1`, and `/apis` in every other case; its
`GroupVersion` is `gv`; and `newForConfig` builds the dynamic client from that very
configuration. -/
theorem setConfigDefaults_apiPath {σ : Type} (d : Deps σ) (groupVersion : String)
    (config : Config) (gv : GroupVersion) (hparse : d.ParseGroupVersion groupVersion = .ok gv) :
    ∃ config1, setConfigDefaults d groupVersion config = .ok config1 ∧
      (config1.APIPath = "/api" ↔ (gv.Group = "" ∧ gv.Version = "v1")) ∧
      (¬ (gv.Group = "" ∧ gv.Version = "v1") → config1.APIPath = "/apis") ∧
      config1.GroupVersion = some gv ∧
      newForConfig d groupVersion config = d.dynamicNewForConfig config1 := by
  by_cases h : gv.Group = "" ∧ gv.Version = "v1"
  · refine ⟨{ config with GroupVersion := some gv, APIPath := "/api",
                          NegotiatedSerializer := some .directCodecFactorySchemeCodecs }, ?_⟩
    simp [setConfigDefaults, newForConfig, hparse, h]
  · refine ⟨{ config with GroupVersion := some gv, APIPath := "/apis",
                          NegotiatedSerializer := some .directCodecFactorySchemeCodecs }, ?_⟩
    simp [setConfigDefaults, newForConfig, hparse, h]

/-- Witness of C1 on the group-version `apps/v1`. -/
theorem setConfigDefaults_apiPath_witness :
    Example.uclientDeps.ParseGroupVersion "apps/v1" = .ok { Group := "apps", Version := "v1" } ∧
    ∃ config1, setConfigDefaults Example.uclientDeps "apps/v1" Example.config = .ok config1 ∧
      (config1.APIPath = "/api" ↔ (("apps" : String) = "" ∧ ("v1" : String) = "v1")) ∧
      (¬ (("apps" : String) = "" ∧ ("v1" : String) = "v1") → config1.APIPath = "/apis") ∧
      config1.GroupVersion = some { Group := "apps", Version := "v1" } ∧
      newForConfig Example.uclientDeps "apps/v1" Example.config =
        Example.uclientDeps.dynamicNewForConfig config1 :=
  ⟨by simp [Example.uclientDeps],
   setConfigDefaults_apiPath Example.uclientDeps "apps/v1" Example.config
     { Group := "apps", Version := "v1" } (by simp [Example.uclientDeps])⟩

/-- The inner loop finds nothing in an entry without the kind. -/
theorem getAPIResource.inner_none (kind : String) (rs : List APIResource)
    (h : ∀ r ∈ rs, r.Kind ≠ kind) : getAPIResource.inner kind rs = none := by
  induction rs with
  | nil => rfl
  | cons r rs ih =>
    have hr : r.Kind ≠ kind := h r (List.mem_cons_self _ _)
    simp only [getAPIResource.inner, if_neg hr]
    exact ih (fun x hx => h x (List.mem_cons_of_mem _ hx))

/-- The inner loop returns the first resource of the entry that has the kind. -/
theorem getAPIResource.inner_some (kind : String) (rs : List APIResource)
    (h : ∃ r ∈ rs, r.Kind = kind) :
    ∃ before r after, rs = before ++ r :: after ∧ (∀ x ∈ before, x.Kind ≠ kind) ∧
      r.Kind = kind ∧ getAPIResource.inner kind rs = some r := by
  induction rs with
  | nil => simp at h
  | cons r0 rs ih =>
    by_cases hr : r0.Kind = kind
    · exact ⟨[], r0, rs, rfl, by simp, hr, by simp [getAPIResource.inner, hr]⟩
    · have h1 : ∃ r ∈ rs, r.Kind = kind := by
        obtain ⟨r, hmem, hk⟩ := h
        rcases List.mem_cons.mp hmem with heq | hin
        · exact absurd (heq ▸ hk) hr
        · exact ⟨r, hin, hk⟩
      obtain ⟨before, r, after, hsplit, hbefore, hk, hinner⟩ := ih h1
      refine ⟨r0 :: before, r, after, by simp [hsplit], ?_, hk, ?_⟩
      · intro x hx
        rcases List.mem_cons.mp hx with heq | hin
        · exact heq ▸ hr
        · exact hbefore x hin
      · simp only [getAPIResource.inner, if_neg hr]
        exact hinner

/-- The outer loop finds nothing in a catalog without a matching entry. -/
theorem getAPIResource.outer_none (apiVersion kind : String) (catalog : List APIResourceList)
    (h : ∀ l ∈ catalog, l.GroupVersion = apiVersion → ∀ r ∈ l.APIResources, r.Kind ≠ kind) :
    getAPIResource.outer apiVersion kind catalog = none := by
  induction catalog with
  | nil => rfl
  | cons l ls ih =>
    have ih1 := ih (fun x hx => h x (List.mem_cons_of_mem _ hx))
    by_cases hgv : l.GroupVersion = apiVersion
    · have hin := getAPIResource.inner_none kind l.APIResources
        (h l (List.mem_cons_self _ _) hgv)
      simp only [getAPIResource.outer, if_pos hgv, hin]
      exact ih1
    · simp only [getAPIResource.outer, if_neg hgv]
      exact ih1

/-- The outer loop returns the first matching entry of the catalog and the first resource of
that entry that has the kind. -/
theorem getAPIResource.outer_some (apiVersion kind : String) (catalog : List APIResourceList)
    (h : ∃ l ∈ catalog, l.GroupVersion = apiVersion ∧ ∃ r ∈ l.APIResources, r.Kind = kind) :
    ∃ pre l post before r after,
      catalog = pre ++ l :: post ∧
      (∀ x ∈ pre, ¬ (x.GroupVersion = apiVersion ∧ ∃ y ∈ x.APIResources, y.Kind = kind)) ∧
      l.GroupVersion = apiVersion ∧
      l.APIResources = before ++ r :: after ∧ (∀ y ∈ before, y.Kind ≠ kind) ∧ r.Kind = kind ∧
      getAPIResource.outer apiVersion kind catalog = some (l, r) := by
  induction catalog with
  | nil => simp at h
  | cons l0 ls ih =>
    by_cases hm : l0.GroupVersion = apiVersion ∧ ∃ y ∈ l0.APIResources, y.Kind = kind
    · obtain ⟨before, r, after, hsplit, hbefore, hk, hinner⟩ :=
        getAPIResource.inner_some kind l0.APIResources hm.2
      exact ⟨[], l0, ls, before, r, after, rfl, by simp, hm.1, hsplit, hbefore, hk,
        by simp [getAPIResource.outer, hm.1, hinner]⟩
    · have h1 : ∃ l ∈ ls, l.GroupVersion = apiVersion ∧ ∃ r ∈ l.APIResources, r.Kind = kind := by
        obtain ⟨l, hmem, hl⟩ := h
        rcases List.mem_cons.mp hmem with heq | hin
        · exact absurd (heq ▸ hl) hm
        · exact ⟨l, hin, hl⟩
      obtain ⟨pre, l, post, before, r, after, hsplit, hpre, hgv, hres, hbefore, hk, hout⟩ :=
        ih h1
      refine ⟨l0 :: pre, l, post, before, r, after, by simp [hsplit], ?_, hgv, hres, hbefore,
        hk, ?_⟩
      · intro x hx
        rcases List.mem_cons.mp hx with heq | hin
        · exact heq ▸ hm
        · exact hpre x hin
      · by_cases hgv0 : l0.GroupVersion = apiVersion
        · have hnone : getAPIResource.inner kind l0.APIResources = none :=
            getAPIResource.inner_none kind l0.APIResources
              (fun y hy hky => hm ⟨hgv0, y, hy, hky⟩)
          simp only [getAPIResource.outer, if_pos hgv0, hnone]
          exact hout
        · simp only [getAPIResource.outer, if_neg hgv0]
          exact hout

/-- The messages of the three error branches of `ClientFor` start differently. -/
theorem parsing_ne_discovering (a b : String) :
    "parsing GroupVersion failed " ++ a ≠ "discovering resource information failed for " ++ b := by
  intro h
  have h1 := congrArg String.data h
  simp at h1

/-- The messages of the three error branches of `ClientFor` start differently. -/
theorem parsing_ne_creating (a b : String) :
    "parsing GroupVersion failed " ++ a ≠ "creating dynamic client failed for " ++ b := by
  intro h
  have h1 := congrArg String.data h
  simp at h1

/-- C2: when discovery returns a catalog in which no entry has the requested group-version and
contains a resource of the requested kind, `getAPIResource` returns an error and nothing else;
the text of the error contains the requested apiVersion and the requested kind; and `ClientFor`
returns no handle and that error wrapped with the context
"discovering resource information failed for (kind) in (apiVersion)". -/
theorem getAPIResource_not_found {σ : Type} (d : Deps σ) (c : Client)
    (apiVersion kind ns : String) (w w1 : σ) (kclient : KubeInterface σ)
    (catalog : List APIResourceList)
    (hclient : d.kubernetesNewForConfig c.cfg = .ok kclient)
    (hdiscovery : kclient.ServerResources w = (.ok catalog, w1))
    (habsent : ∀ l ∈ catalog, l.GroupVersion = apiVersion →
      ∀ r ∈ l.APIResources, r.Kind ≠ kind) :
    ∃ err, getAPIResource d c apiVersion kind w = (.error err, w1) ∧
      err.Error = "apiVersion " ++ apiVersion ++ " and kind " ++ kind ++
        " not found available in Kubernetes cluster" ∧
      (∃ a b, err.Error = a ++ apiVersion ++ b) ∧ (∃ a b, err.Error = a ++ kind ++ b) ∧
      ClientFor d c apiVersion kind ns w =
        (.error (.wrapf err
          ("discovering resource information failed for " ++ kind ++ " in " ++ apiVersion)), w1) ∧
      (GoError.wrapf err
          ("discovering resource information failed for " ++ kind ++ " in " ++ apiVersion)).Error =
        "discovering resource information failed for " ++ kind ++ " in " ++ apiVersion ++ ": " ++
          err.Error := by
  have hout := getAPIResource.outer_none apiVersion kind catalog habsent
  have hget : getAPIResource d c apiVersion kind w =
      (.error (.errorf ("apiVersion " ++ apiVersion ++ " and kind " ++ kind ++
        " not found available in Kubernetes cluster")), w1) := by
    simp [getAPIResource, hclient, hdiscovery, hout]
  refine ⟨_, hget, rfl, ⟨"apiVersion ", " and kind " ++ kind ++
      " not found available in Kubernetes cluster", ?_⟩,
    ⟨"apiVersion " ++ apiVersion ++ " and kind ",
      " not found available in Kubernetes cluster", ?_⟩, ?_, rfl⟩
  · simp [GoError.Error, String.append_assoc]
  · simp [GoError.Error, String.append_assoc]
  · simp [ClientFor, hget]

/-- Witness of C2: the example cluster serves no `Job` under `batch/v1`. -/
theorem getAPIResource_not_found_witness :
    ∃ err, getAPIResource Example.uclientDeps (NewForConfig Example.config) "batch/v1" "Job" () =
        (.error err, ()) ∧
      err.Error = "apiVersion " ++ "batch/v1" ++ " and kind " ++ "Job" ++
        " not found available in Kubernetes cluster" ∧
      (∃ a b, err.Error = a ++ "batch/v1" ++ b) ∧ (∃ a b, err.Error = a ++ "Job" ++ b) ∧
      ClientFor Example.uclientDeps (NewForConfig Example.config) "batch/v1" "Job" "default" () =
        (.error (.wrapf err
          ("discovering resource information failed for " ++ "Job" ++ " in " ++ "batch/v1")), ()) ∧
      (GoError.wrapf err
          ("discovering resource information failed for " ++ "Job" ++ " in " ++ "batch/v1")).Error =
        "discovering resource information failed for " ++ "Job" ++ " in " ++ "batch/v1" ++ ": " ++
          err.Error :=
  getAPIResource_not_found Example.uclientDeps (NewForConfig Example.config) "batch/v1" "Job"
    "default" () () (Example.kube [] [] []) Example.catalog rfl rfl
    (by simp [Example.catalog])

/-- C9: when discovery returns a catalog in which some entry has the requested group-version
and contains a resource of the requested kind, `getAPIResource` succeeds and returns the first
such entry in catalog order (every entry before it lacks the group-version or the kind) with the
first resource of that entry that has the kind; and when the dynamic client is built and the
group-version of the entry parses, `ClientFor` returns the handle of that client for the parsed
group and version, the plural name of that resource, and the namespace it was given. -/
theorem getAPIResource_first_match {σ : Type} (d : Deps σ) (c : Client)
    (apiVersion kind ns : String) (w w1 : σ) (kclient : KubeInterface σ)
    (catalog : List APIResourceList)
    (hclient : d.kubernetesNewForConfig c.cfg = .ok kclient)
    (hdiscovery : kclient.ServerResources w = (.ok catalog, w1))
    (hpresent : ∃ l ∈ catalog, l.GroupVersion = apiVersion ∧
      ∃ r ∈ l.APIResources, r.Kind = kind) :
    ∃ pre l post before r after,
      catalog = pre ++ l :: post ∧
      (∀ x ∈ pre, ¬ (x.GroupVersion = apiVersion ∧ ∃ y ∈ x.APIResources, y.Kind = kind)) ∧
      l.GroupVersion = apiVersion ∧
      l.APIResources = before ++ r :: after ∧ (∀ y ∈ before, y.Kind ≠ kind) ∧ r.Kind = kind ∧
      getAPIResource d c apiVersion kind w = (.ok (l, r), w1) ∧
      ∀ dc gv, newForConfig d l.GroupVersion c.cfg = .ok dc →
        d.ParseGroupVersion l.GroupVersion = .ok gv →
        ClientFor d c apiVersion kind ns w =
          (.ok ((dc.Resource
            { Group := gv.Group, Version := gv.Version, Resource := r.Name }).Namespace ns), w1) := by
  obtain ⟨pre, l, post, before, r, after, hsplit, hpre, hgv, hres, hbefore, hk, hout⟩ :=
    getAPIResource.outer_some apiVersion kind catalog hpresent
  have hget : getAPIResource d c apiVersion kind w = (.ok (l, r), w1) := by
    simp [getAPIResource, hclient, hdiscovery, hout]
  refine ⟨pre, l, post, before, r, after, hsplit, hpre, hgv, hres, hbefore, hk, hget, ?_⟩
  intro dc gv hdc hparse
  simp [ClientFor, hget, hdc, hparse]

/-- Witness of C9: in the example catalog the first `v1` entry lacks `Pod`, the third one is
the first that serves it, as its second resource `pods`; later duplicates are ignored. -/
theorem getAPIResource_first_match_witness :
    (∃ l ∈ Example.catalog, l.GroupVersion = "v1" ∧ ∃ r ∈ l.APIResources, r.Kind = "Pod") ∧
    getAPIResource Example.uclientDeps (NewForConfig Example.config) "v1" "Pod" () =
      (.ok ({ GroupVersion := "v1",
              APIResources := [{ Name := "configmaps", Kind := "ConfigMap" },
                { Name := "pods", Kind := "Pod" }, { Name := "podsagain", Kind := "Pod" }] },
            { Name := "pods", Kind := "Pod" }), ()) ∧
    ClientFor Example.uclientDeps (NewForConfig Example.config) "v1" "Pod" "default" () =
      (.ok ((Example.dynamicClient.Resource
        { Group := "", Version := "v1", Resource := "pods" }).Namespace "default"), ()) := by
  have hpresent : ∃ l ∈ Example.catalog, l.GroupVersion = "v1" ∧
      ∃ r ∈ l.APIResources, r.Kind = "Pod" := by
    simp [Example.catalog]
  obtain ⟨pre, l, post, before, r, after, -, -, -, -, -, -, hget, hfor⟩ :=
    getAPIResource_first_match Example.uclientDeps (NewForConfig Example.config) "v1" "Pod"
      "default" () () (Example.kube [] [] []) Example.catalog rfl rfl hpresent
  have hconcrete : getAPIResource Example.uclientDeps (NewForConfig Example.config) "v1" "Pod" () =
      (.ok ({ GroupVersion := "v1",
              APIResources := [{ Name := "configmaps", Kind := "ConfigMap" },
                { Name := "pods", Kind := "Pod" }, { Name := "podsagain", Kind := "Pod" }] },
            { Name := "pods", Kind := "Pod" }), ()) := by
    simp [getAPIResource, Example.uclientDeps, Example.kube, Example.catalog,
      getAPIResource.outer, getAPIResource.inner]
  refine ⟨hpresent, hconcrete, ?_⟩
  rw [hconcrete] at hget
  simp only [Prod.mk.injEq, Except.ok.injEq, and_true] at hget
  obtain ⟨hl, hr⟩ := hget
  subst hl hr
  exact hfor Example.dynamicClient { Group := "", Version := "v1" }
    (by simp [newForConfig, setConfigDefaults, Example.uclientDeps])
    (by simp [Example.uclientDeps])

/-- C10: in `ClientFor`, whenever `newForConfig` returns without error the group-version string
parses, so that the branch "parsing GroupVersion failed" is never taken: `ClientFor` returns no
error with that context, and when the group-version of the matched entry does not parse the
parse error is returned wrapped with "creating dynamic client failed for (groupVersion)". -/
theorem ClientFor_parse_branch_unreachable {σ : Type} (d : Deps σ) (c : Client)
    (apiVersion kind ns : String) (w : σ) :
    (∀ groupVersion dc, newForConfig d groupVersion c.cfg = .ok dc →
      ∃ gv, d.ParseGroupVersion groupVersion = .ok gv) ∧
    (∀ l r w1 e, getAPIResource d c apiVersion kind w = (.ok (l, r), w1) →
      d.ParseGroupVersion l.GroupVersion = .error e →
      ClientFor d c apiVersion kind ns w =
        (.error (.wrapf e ("creating dynamic client failed for " ++ l.GroupVersion)), w1)) ∧
    (∀ e s, (ClientFor d c apiVersion kind ns w).1 ≠
      .error (.wrapf e ("parsing GroupVersion failed " ++ s))) := by
  refine ⟨?_, ?_, ?_⟩
  · intro groupVersion dc hdc
    unfold newForConfig setConfigDefaults at hdc
    cases hparse : d.ParseGroupVersion groupVersion with
    | error err => simp [hparse] at hdc
    | ok gv => exact ⟨gv, rfl⟩
  · intro l r w1 e hget hparse
    simp [ClientFor, hget, newForConfig, setConfigDefaults, hparse]
  · intro e s
    unfold ClientFor
    rcases hget : getAPIResource d c apiVersion kind w with ⟨res, w1⟩
    cases res with
    | error err =>
      simp only [ne_eq, Except.error.injEq, GoError.wrapf.injEq, not_and]
      intro _ h
      exact parsing_ne_discovering _ _ h.symm
    | ok found =>
      obtain ⟨l, r⟩ := found
      simp only
      cases hparse : d.ParseGroupVersion l.GroupVersion with
      | error err =>
        simp only [newForConfig, setConfigDefaults, hparse, ne_eq, Except.error.injEq,
          GoError.wrapf.injEq, not_and]
        intro _ h
        exact parsing_ne_creating _ _ h.symm
      | ok gv =>
        cases hdc : newForConfig d l.GroupVersion c.cfg with
        | error err =>
          simp only [ne_eq, Except.error.injEq, GoError.wrapf.injEq, not_and]
          intro _ h
          exact parsing_ne_creating _ _ h.symm
        | ok dc => simp

/-- Witness of C10: the example catalog serves `Widget` under the group-version `a/b/c`, which
the parser rejects. -/
theorem ClientFor_parse_branch_unreachable_witness :
    (∃ gv, Example.uclientDeps.ParseGroupVersion "v1" = .ok gv) ∧
    ClientFor Example.uclientDeps (NewForConfig Example.config) "a/b/c" "Widget" "default" () =
      (.error (.wrapf (.errorf ("unexpected GroupVersion string: " ++ "a/b/c"))
        ("creating dynamic client failed for " ++ "a/b/c")), ()) :=
  ⟨(ClientFor_parse_branch_unreachable Example.uclientDeps (NewForConfig Example.config)
      "a/b/c" "Widget" "default" ()).1 "v1" Example.dynamicClient
      (by simp [newForConfig, setConfigDefaults, Example.uclientDeps]),
   (ClientFor_parse_branch_unreachable Example.uclientDeps (NewForConfig Example.config)
      "a/b/c" "Widget" "default" ()).2.1
      { GroupVersion := "a/b/c", APIResources := [{ Name := "widgets", Kind := "Widget" }] }
      { Name := "widgets", Kind := "Widget" } () (.errorf ("unexpected GroupVersion string: " ++ "a/b/c"))
      (by simp [getAPIResource, Example.uclientDeps, Example.kube, Example.catalog,
        getAPIResource.outer, getAPIResource.inner])
      (by simp [Example.uclientDeps])⟩

end Uclient

/-! ## The scenario steps -/

namespace Kubetest

/-- The loop over the conditions looks at the first condition of type `Ready` only. -/
theorem podRunningAndReady.conds_eq (conds : List PodCondition) :
    podRunningAndReady.conds conds =
      match conds.find? (fun c => decide (c.«Type» = PodReady)) with
      | some c => (decide (c.Status = ConditionTrue), none)
      | none => (false, some (.errorf "pod ready condition not found")) := by
  induction conds with
  | nil => rfl
  | cons c rest ih =>
    by_cases h : c.«Type» = PodReady
    · simp [podRunningAndReady.conds, List.find?, h]
    · simp [podRunningAndReady.conds, List.find?, h, ih]

/-- Counterexample to C8 as stated: a running pod whose conditions are `Ready` with status
`False` followed by `Ready` with status `True` reports a `Ready` condition with status `True`,
and `podRunningAndReady` returns `(false, nil)` for it. -/
theorem podRunningAndReady_counterexample :
    (Example.podIn PodRunning
        [{ «Type» := PodReady, Status := ConditionFalse },
         { «Type» := PodReady, Status := ConditionTrue }]).Status.Phase = PodRunning ∧
    (∃ c ∈ (Example.podIn PodRunning
        [{ «Type» := PodReady, Status := ConditionFalse },
         { «Type» := PodReady, Status := ConditionTrue }]).Status.Conditions,
      c.«Type» = PodReady ∧ c.Status = ConditionTrue) ∧
    podRunningAndReady (Example.podIn PodRunning
        [{ «Type» := PodReady, Status := ConditionFalse },
         { «Type» := PodReady, Status := ConditionTrue }]) = (false, none) ∧
    podRunningAndReady (Example.podIn PodRunning
        [{ «Type» := PodReady, Status := ConditionFalse },
         { «Type» := PodReady, Status := ConditionTrue }]) ≠ (true, none) := by
  refine ⟨rfl, ⟨{ «Type» := PodReady, Status := ConditionTrue }, ?_, rfl, rfl⟩, ?_, ?_⟩
  · simp [Example.podIn]
  · simp [podRunningAndReady, podRunningAndReady.conds, Example.podIn, PodRunning, PodFailed,
      PodSucceeded, PodReady, ConditionTrue, ConditionFalse]
  · simp [podRunningAndReady, podRunningAndReady.conds, Example.podIn, PodRunning, PodFailed,
      PodSucceeded, PodReady, ConditionTrue, ConditionFalse]

/-- C8, amended: `podRunningAndReady` returns `(true, nil)` exactly when the phase of the pod is
`Running` and the first condition of type `Ready` in its condition list has status `True`; it
returns an error (with `false`) exactly when the phase is `Failed` or `Succeeded`, or the phase
is `Running` and the condition list has no entry of type `Ready`; in every remaining case
(`Running` with a first `Ready` condition that is not `True`, or any other phase) it returns
`(false, nil)`. -/
theorem podRunningAndReady_cases (pod : Pod) :
    (podRunningAndReady pod = (true, none) ↔
      (pod.Status.Phase = PodRunning ∧
        ∃ c, pod.Status.Conditions.find? (fun c => decide (c.«Type» = PodReady)) = some c ∧
          c.Status = ConditionTrue)) ∧
    ((∃ err, podRunningAndReady pod = (false, some err)) ↔
      (pod.Status.Phase = PodFailed ∨ pod.Status.Phase = PodSucceeded ∨
        (pod.Status.Phase = PodRunning ∧ ∀ c ∈ pod.Status.Conditions, c.«Type» ≠ PodReady))) ∧
    ((∃ err, (podRunningAndReady pod).2 = some err) ↔
      ∃ err, podRunningAndReady pod = (false, some err)) ∧
    (¬ (pod.Status.Phase = PodRunning ∧
        ∃ c, pod.Status.Conditions.find? (fun c => decide (c.«Type» = PodReady)) = some c ∧
          c.Status = ConditionTrue) →
      ¬ (pod.Status.Phase = PodFailed ∨ pod.Status.Phase = PodSucceeded ∨
        (pod.Status.Phase = PodRunning ∧ ∀ c ∈ pod.Status.Conditions, c.«Type» ≠ PodReady)) →
      podRunningAndReady pod = (false, none)) := by
  have hRF : PodRunning ≠ PodFailed := by decide
  have hRS : PodRunning ≠ PodSucceeded := by decide
  unfold podRunningAndReady
  rw [podRunningAndReady.conds_eq]
  by_cases hterm : pod.Status.Phase = PodFailed ∨ pod.Status.Phase = PodSucceeded
  · have hnr : pod.Status.Phase ≠ PodRunning := by
      rcases hterm with h | h
      · rw [h]; exact hRF.symm
      · rw [h]; exact hRS.symm
    simp only [if_pos hterm]
    refine ⟨?_, ?_, ?_, ?_⟩
    · simp [hnr]
    · constructor
      · intro _
        rcases hterm with h | h
        · exact Or.inl h
        · exact Or.inr (Or.inl h)
      · intro _
        exact ⟨_, rfl⟩
    · simp
    · intro _ h2
      exact absurd (by rcases hterm with h | h; exact Or.inl h; exact Or.inr (Or.inl h)) h2
  · have hnf : pod.Status.Phase ≠ PodFailed := fun h => hterm (Or.inl h)
    have hns : pod.Status.Phase ≠ PodSucceeded := fun h => hterm (Or.inr h)
    simp only [if_neg hterm]
    by_cases hrun : pod.Status.Phase = PodRunning
    · simp only [if_pos hrun]
      cases hfind : pod.Status.Conditions.find? (fun c => decide (c.«Type» = PodReady)) with
      | none =>
        have hall : ∀ c ∈ pod.Status.Conditions, c.«Type» ≠ PodReady := by
          intro c hc
          have := List.find?_eq_none.mp hfind c hc
          simpa using this
        refine ⟨?_, ?_, ?_, ?_⟩
        · simp
        · constructor
          · intro _
            exact Or.inr (Or.inr ⟨hrun, hall⟩)
          · intro _
            exact ⟨_, rfl⟩
        · simp
        · intro _ h2
          exact absurd (Or.inr (Or.inr ⟨hrun, hall⟩)) h2
      | some c =>
        have hc : c ∈ pod.Status.Conditions ∧ c.«Type» = PodReady := by
          refine ⟨List.mem_of_find?_eq_some hfind, ?_⟩
          have := List.find?_some hfind
          simpa using this
        have hnall : ¬ ∀ c ∈ pod.Status.Conditions, c.«Type» ≠ PodReady :=
          fun h => h c hc.1 hc.2
        refine ⟨?_, ?_, ?_, ?_⟩
        · simp [hrun]
        · simp [hnf, hns, hnall]
        · simp
        · intro h1 _
          have hst : c.Status ≠ ConditionTrue := fun h => h1 ⟨hrun, c, rfl, h⟩
          simp [hst]
    · simp only [if_neg hrun]
      refine ⟨?_, ?_, ?_, ?_⟩
      · simp [hrun]
      · simp [hnf, hns, hrun]
      · simp
      · intro _ _
        trivial

/-- A pod in phase `Failed` or `Succeeded` makes `podRunningAndReady` return an error. -/
theorem podRunningAndReady_completed (pod : Pod)
    (h : pod.Status.Phase = PodFailed ∨ pod.Status.Phase = PodSucceeded) :
    podRunningAndReady pod = (false, some (.errorf "pod completed")) := by
  simp [podRunningAndReady, h]

/-- The counting loop returns an error as soon as one pod makes `podRunningAndReady` fail. -/
theorem PodsAreReady.count_error (pods : List Pod) (n : Nat)
    (h : ∃ p ∈ pods, ∃ err, (podRunningAndReady p).2 = some err) :
    ∃ err, PodsAreReady.count pods n = .error err := by
  induction pods generalizing n with
  | nil => simp at h
  | cons p rest ih =>
    rcases hp : podRunningAndReady p with ⟨b, e⟩
    cases e with
    | some err => exact ⟨err, by simp [PodsAreReady.count, hp]⟩
    | none =>
      have hrest : ∃ q ∈ rest, ∃ err, (podRunningAndReady q).2 = some err := by
        obtain ⟨q, hq, err, herr⟩ := h
        rcases List.mem_cons.mp hq with heq | hin
        · subst heq
          simp [hp] at herr
        · exact ⟨q, hin, err, herr⟩
      obtain ⟨err, herr⟩ := ih (if b = true then n + 1 else n) hrest
      exact ⟨err, by simp [PodsAreReady.count, hp, herr]⟩

/-- Without failing pods the counting loop adds the number of running and ready pods to its
counter. -/
theorem PodsAreReady.count_ok (pods : List Pod) (n : Nat)
    (h : ∀ p ∈ pods, (podRunningAndReady p).2 = none) :
    PodsAreReady.count pods n =
      .ok (n + pods.countP (fun p => (podRunningAndReady p).1)) := by
  induction pods generalizing n with
  | nil => simp [PodsAreReady.count]
  | cons p rest ih =>
    have hp := h p (List.mem_cons_self _ _)
    have hrest := fun q hq => h q (List.mem_cons_of_mem _ hq)
    rcases hpr : podRunningAndReady p with ⟨b, e⟩
    rw [hpr] at hp
    simp only at hp
    subst hp
    cases b with
    | true =>
      simp only [PodsAreReady.count, hpr, if_true, ih _ hrest, List.countP_cons_of_pos]
      congr 1
      omega
    | false =>
      simp only [PodsAreReady.count, hpr, ih _ hrest]
      simp [List.countP_cons, hpr]

/-- C5: when the listed pods contain a pod in phase `Failed` or `Succeeded`, one evaluation of
the poll callback of `PodsAreReady` returns `false` and a non-nil error, whatever the other pods
and the expected replica count are. -/
theorem PodsAreReady_condition_completed {σ : Type} (client : KubeInterface σ)
    (replicas : Int) (labels : String) (ctx : ScenarioContext σ) (w w1 : σ) (pods : List Pod)
    (hlist : client.PodsList ctx.Namespace labels w = (.ok pods, w1))
    (hcompleted : ∃ p ∈ pods, p.Status.Phase = PodFailed ∨ p.Status.Phase = PodSucceeded) :
    ∃ err, PodsAreReady.condition client replicas labels ctx w = ((false, some err), w1) := by
  have herr : ∃ p ∈ pods, ∃ err, (podRunningAndReady p).2 = some err := by
    obtain ⟨p, hp, hphase⟩ := hcompleted
    exact ⟨p, hp, _, by rw [podRunningAndReady_completed p hphase]⟩
  obtain ⟨err, hcount⟩ := PodsAreReady.count_error pods 0 herr
  exact ⟨err, by simp [PodsAreReady.condition, hlist, hcount]⟩

/-- Witness of C5: one ready pod and one succeeded pod are listed and one replica is expected,
so that the running and ready count of the other pods equals the expected count. -/
theorem PodsAreReady_condition_completed_witness :
    (∃ p ∈ [Example.readyPod, Example.podIn PodSucceeded []],
      p.Status.Phase = PodFailed ∨ p.Status.Phase = PodSucceeded) ∧
    ∃ err, PodsAreReady.condition
      (Example.kube [Example.readyPod, Example.podIn PodSucceeded []] [] []) 1
      "app=kube-rbac-proxy" Example.ctx () = ((false, some err), ()) :=
  ⟨⟨Example.podIn PodSucceeded [], by simp, Or.inr rfl⟩,
   PodsAreReady_condition_completed
    (Example.kube [Example.readyPod, Example.podIn PodSucceeded []] [] []) 1
    "app=kube-rbac-proxy" Example.ctx () () [Example.readyPod, Example.podIn PodSucceeded []]
    rfl ⟨Example.podIn PodSucceeded [], by simp, Or.inr rfl⟩⟩

/-- C6: when the pods are listed and none of them makes `podRunningAndReady` return an error,
one evaluation of the poll callback of `PodsAreReady` returns `(true, nil)` if and only if the
number of pods for which `podRunningAndReady` is true equals the expected replica count, and
`(false, nil)` otherwise; in particular it does not report success when fewer pods than
expected are running and ready. -/
theorem PodsAreReady_condition_count {σ : Type} (client : KubeInterface σ)
    (replicas : Int) (labels : String) (ctx : ScenarioContext σ) (w w1 : σ) (pods : List Pod)
    (hlist : client.PodsList ctx.Namespace labels w = (.ok pods, w1))
    (hok : ∀ p ∈ pods, (podRunningAndReady p).2 = none) :
    (PodsAreReady.condition client replicas labels ctx w = ((true, none), w1) ↔
      ((pods.countP (fun p => (podRunningAndReady p).1) : Nat) : Int) = replicas) ∧
    (((pods.countP (fun p => (podRunningAndReady p).1) : Nat) : Int) ≠ replicas →
      PodsAreReady.condition client replicas labels ctx w = ((false, none), w1)) ∧
    (((pods.countP (fun p => (podRunningAndReady p).1) : Nat) : Int) < replicas →
      PodsAreReady.condition client replicas labels ctx w ≠ ((true, none), w1)) := by
  have hcount := PodsAreReady.count_ok pods 0 hok
  have hcond : PodsAreReady.condition client replicas labels ctx w =
      if ((pods.countP (fun p => (podRunningAndReady p).1) : Nat) : Int) = replicas then
        ((true, none), w1) else ((false, none), w1) := by
    simp [PodsAreReady.condition, hlist, hcount]
  rw [hcond]
  refine ⟨?_, ?_, ?_⟩
  · by_cases h : ((pods.countP (fun p => (podRunningAndReady p).1) : Nat) : Int) = replicas
    · simp [h]
    · simp [h]
  · intro h
    simp [h]
  · intro h
    have hne : ((pods.countP (fun p => (podRunningAndReady p).1) : Nat) : Int) ≠ replicas :=
      ne_of_lt h
    simp [hne]

/-- Witness of C6: one ready pod and one pending pod are listed; with one expected replica the
callback reports success, with two it does not. -/
theorem PodsAreReady_condition_count_witness :
    PodsAreReady.condition (Example.kube [Example.readyPod, Example.podIn PodPending []] [] []) 1
      "app=kube-rbac-proxy" Example.ctx () = ((true, none), ()) ∧
    PodsAreReady.condition (Example.kube [Example.readyPod, Example.podIn PodPending []] [] []) 2
      "app=kube-rbac-proxy" Example.ctx () = ((false, none), ()) := by
  have hok : ∀ p ∈ [Example.readyPod, Example.podIn PodPending []],
      (podRunningAndReady p).2 = none := by
    intro p hp
    simp only [List.mem_cons, List.mem_singleton, List.not_mem_nil, or_false] at hp
    rcases hp with h | h <;> subst h <;> decide
  have hcnt : (([Example.readyPod, Example.podIn PodPending []].countP
      (fun p => (podRunningAndReady p).1) : Nat) : Int) = 1 := by decide
  exact ⟨(PodsAreReady_condition_count
      (Example.kube [Example.readyPod, Example.podIn PodPending []] [] []) 1
      "app=kube-rbac-proxy" Example.ctx () () [Example.readyPod, Example.podIn PodPending []]
      rfl hok).1.mpr hcnt,
    (PodsAreReady_condition_count
      (Example.kube [Example.readyPod, Example.podIn PodPending []] [] []) 2
      "app=kube-rbac-proxy" Example.ctx () () [Example.readyPod, Example.podIn PodPending []]
      rfl hok).2.1 (by rw [hcnt]; decide)⟩

/-- Registering a finalizer leaves the namespace of the context as it is. -/
theorem ScenarioContext.AddFinalizer_Namespace {σ : Type} (ctx : ScenarioContext σ)
    (f : Finalizer σ) : (ctx.AddFinalizer f).Namespace = ctx.Namespace := rfl

/-- The watch loop ends with `done` at a succeeded pod that no failed pod precedes. -/
theorem run.loop_done (pre post : List WatchEvent) (p : Pod)
    (hpre : ∀ x ∈ pre, ∃ q, x.Object = .pod q ∧ q.Status.Phase ≠ PodFailed)
    (hp : p.Status.Phase = PodSucceeded) :
    run.loop (pre ++ { Object := .pod p } :: post) = .done := by
  have hSF : PodSucceeded ≠ PodFailed := by decide
  induction pre with
  | nil => simp [run.loop, hp, hSF]
  | cons x rest ih =>
    obtain ⟨q, hq, hphase⟩ := hpre x (List.mem_cons_self _ _)
    have ih1 := ih (fun y hy => hpre y (List.mem_cons_of_mem _ hy))
    by_cases hs : q.Status.Phase = PodSucceeded
    · simp [run.loop, hq, hs, hSF]
    · simp [run.loop, hq, hphase, hs, ih1]

/-- The watch loop ends with `failed` at a failed pod that no succeeded pod precedes. -/
theorem run.loop_failed (pre post : List WatchEvent) (p : Pod)
    (hpre : ∀ x ∈ pre, ∃ q, x.Object = .pod q ∧ q.Status.Phase ≠ PodSucceeded)
    (hp : p.Status.Phase = PodFailed) :
    run.loop (pre ++ { Object := .pod p } :: post) = .failed := by
  induction pre with
  | nil => simp [run.loop, hp]
  | cons x rest ih =>
    obtain ⟨q, hq, hphase⟩ := hpre x (List.mem_cons_self _ _)
    have ih1 := ih (fun y hy => hpre y (List.mem_cons_of_mem _ hy))
    by_cases hf : q.Status.Phase = PodFailed
    · simp [run.loop, hq, hf]
    · simp [run.loop, hq, hphase, hf, ih1]

/-- Counterexample to C7 as stated: the pod is created and the watch is opened without error,
the first event carries an object that is not a pod and the second one the pod in phase
`Succeeded`, with no event of a failed pod before it; `run` panics at the type assertion of the
first event, so that it returns nothing and the check of `RunSucceeds` does not return nil. -/
theorem RunSucceeds_terminal_phase_counterexample :
    (Example.kube [] [{ Object := .notAPod },
        { Object := .pod (Example.podIn PodSucceeded []) }] [7, 8]).PodsCreate "default"
      (run.pod "default" "busybox" "probe" ["true"] none) () =
        (.ok (run.pod "default" "busybox" "probe" ["true"] none), ()) ∧
    (Example.kube [] [{ Object := .notAPod },
        { Object := .pod (Example.podIn PodSucceeded []) }] [7, 8]).PodsWatch "default"
      (run.pod "default" "busybox" "probe" ["true"] none).ObjectMeta () =
        (.ok [{ Object := .notAPod }, { Object := .pod (Example.podIn PodSucceeded []) }], ()) ∧
    (∀ x ∈ [({ Object := .notAPod } : WatchEvent)],
      ∀ q, x.Object = .pod q → q.Status.Phase ≠ PodFailed) ∧
    (Example.podIn PodSucceeded []).Status.Phase = PodSucceeded ∧
    (run (Example.kube [] [{ Object := .notAPod },
        { Object := .pod (Example.podIn PodSucceeded []) }] [7, 8])
      Example.ctx "busybox" "probe" ["true"] none ()).1.1 = .panicked ∧
    (RunSucceeds (Example.kube [] [{ Object := .notAPod },
        { Object := .pod (Example.podIn PodSucceeded []) }] [7, 8])
      "busybox" "probe" ["true"] none Example.ctx () [1]).1.1 = .panicked ∧
    (RunSucceeds (Example.kube [] [{ Object := .notAPod },
        { Object := .pod (Example.podIn PodSucceeded []) }] [7, 8])
      "busybox" "probe" ["true"] none Example.ctx () [1]).1.1 ≠ .returned none := by
  have hrun : (run (Example.kube [] [{ Object := .notAPod },
        { Object := .pod (Example.podIn PodSucceeded []) }] [7, 8])
      Example.ctx "busybox" "probe" ["true"] none ()).1.1 = .panicked := rfl
  have hcheck : (RunSucceeds (Example.kube [] [{ Object := .notAPod },
        { Object := .pod (Example.podIn PodSucceeded []) }] [7, 8])
      "busybox" "probe" ["true"] none Example.ctx () [1]).1.1 = .panicked := rfl
  refine ⟨rfl, rfl, ?_, rfl, hrun, hcheck, ?_⟩
  · intro x hx q hq
    simp only [List.mem_singleton] at hx
    subst hx
    simp at hq
  · rw [hcheck]
    simp

/-- C7, amended: when the pod is created and watched without error and every event up to the
terminal one carries a pod: if the events reach a pod in phase `Succeeded` before any pod in
phase `Failed`, `run` returns the logs and a nil error and the check of `RunSucceeds` returns
nil and leaves standard error as it was; if they reach a pod in phase `Failed` before any pod in
phase `Succeeded`, `run` returns the logs and `errRun` and the check of `RunSucceeds` returns
that non-nil error and has appended the logs to standard error. -/
theorem RunSucceeds_terminal_phase {σ : Type} (client : KubeInterface σ)
    (ctx : ScenarioContext σ) (image name : String) (command : List String)
    (opts : Option RunOptions) (w w1 w2 : σ) (stderr : Bytes) (created : Pod)
    (pre post : List WatchEvent) (p : Pod)
    (hcreate : client.PodsCreate ctx.Namespace
      (run.pod ctx.Namespace image name command opts) w = (.ok created, w1))
    (hwatch : client.PodsWatch ctx.Namespace
      (run.pod ctx.Namespace image name command opts).ObjectMeta w1 =
        (.ok (pre ++ { Object := .pod p } :: post), w2)) :
    ((∀ x ∈ pre, ∃ q, x.Object = .pod q ∧ q.Status.Phase ≠ PodFailed) →
      p.Status.Phase = PodSucceeded →
      (run client ctx image name command opts w).1.1 =
        .returned ((podLogs client ctx.Namespace name name w2).1.1, none) ∧
      (RunSucceeds client image name command opts ctx w stderr).1.1 = .returned none ∧
      (RunSucceeds client image name command opts ctx w stderr).2.2 = stderr) ∧
    ((∀ x ∈ pre, ∃ q, x.Object = .pod q ∧ q.Status.Phase ≠ PodSucceeded) →
      p.Status.Phase = PodFailed →
      (run client ctx image name command opts w).1.1 =
        .returned ((podLogs client ctx.Namespace name name w2).1.1, some errRun) ∧
      (RunSucceeds client image name command opts ctx w stderr).1.1 = .returned (some errRun) ∧
      (RunSucceeds client image name command opts ctx w stderr).2.2 =
        stderr ++ (podLogs client ctx.Namespace name name w2).1.1) := by
  constructor
  · intro hpre hp
    have hloop := run.loop_done pre post p hpre hp
    have hrun : run client ctx image name command opts w =
        ((.returned ((podLogs client ctx.Namespace name name w2).1.1, none),
          ctx.AddFinalizer (fun w => client.PodsDelete ctx.Namespace
            (run.pod ctx.Namespace image name command opts).ObjectMeta.Name w)),
          (podLogs client ctx.Namespace name name w2).2) := by
      simp [run, ScenarioContext.AddFinalizer_Namespace, hcreate, hwatch, hloop]
    simp [RunSucceeds, hrun]
  · intro hpre hp
    have hloop := run.loop_failed pre post p hpre hp
    have hrun : run client ctx image name command opts w =
        ((.returned ((podLogs client ctx.Namespace name name w2).1.1, some errRun),
          ctx.AddFinalizer (fun w => client.PodsDelete ctx.Namespace
            (run.pod ctx.Namespace image name command opts).ObjectMeta.Name w)),
          (podLogs client ctx.Namespace name name w2).2) := by
      simp [run, ScenarioContext.AddFinalizer_Namespace, hcreate, hwatch, hloop]
    simp [RunSucceeds, hrun]

/-- Witness of C7: a pod that is pending, then running, then succeeded; and a pod that is
pending, then failed, with the logs `[7, 8]`. -/
theorem RunSucceeds_terminal_phase_witness :
    ((RunSucceeds (Example.kube []
        [{ Object := .pod (Example.podIn PodPending []) },
         { Object := .pod (Example.podIn PodRunning []) },
         { Object := .pod (Example.podIn PodSucceeded []) }] [7, 8])
        "busybox" "probe" ["true"] none Example.ctx () [1]).1.1 = .returned none ∧
     (RunSucceeds (Example.kube []
        [{ Object := .pod (Example.podIn PodPending []) },
         { Object := .pod (Example.podIn PodRunning []) },
         { Object := .pod (Example.podIn PodSucceeded []) }] [7, 8])
        "busybox" "probe" ["true"] none Example.ctx () [1]).2.2 = [1]) ∧
    ((RunSucceeds (Example.kube []
        [{ Object := .pod (Example.podIn PodPending []) },
         { Object := .pod (Example.podIn PodFailed []) }] [7, 8])
        "busybox" "probe" ["false"] none Example.ctx () [1]).1.1 = .returned (some errRun) ∧
     (RunSucceeds (Example.kube []
        [{ Object := .pod (Example.podIn PodPending []) },
         { Object := .pod (Example.podIn PodFailed []) }] [7, 8])
        "busybox" "probe" ["false"] none Example.ctx () [1]).2.2 = [1, 7, 8]) :=
  ⟨((RunSucceeds_terminal_phase (Example.kube []
        [{ Object := .pod (Example.podIn PodPending []) },
         { Object := .pod (Example.podIn PodRunning []) },
         { Object := .pod (Example.podIn PodSucceeded []) }] [7, 8])
      Example.ctx "busybox" "probe" ["true"] none () () () [1]
      (run.pod "default" "busybox" "probe" ["true"] none)
      [{ Object := .pod (Example.podIn PodPending []) },
       { Object := .pod (Example.podIn PodRunning []) }] []
      (Example.podIn PodSucceeded []) rfl rfl).1
      (by
        intro x hx
        simp only [List.mem_cons, List.mem_singleton, List.not_mem_nil, or_false] at hx
        rcases hx with h | h
        · exact ⟨Example.podIn PodPending [], by rw [h], by decide⟩
        · exact ⟨Example.podIn PodRunning [], by rw [h], by decide⟩)
      rfl).2,
   ((RunSucceeds_terminal_phase (Example.kube []
        [{ Object := .pod (Example.podIn PodPending []) },
         { Object := .pod (Example.podIn PodFailed []) }] [7, 8])
      Example.ctx "busybox" "probe" ["false"] none () () () [1]
      (run.pod "default" "busybox" "probe" ["false"] none)
      [{ Object := .pod (Example.podIn PodPending []) }] []
      (Example.podIn PodFailed []) rfl rfl).2
      (by
        intro x hx
        simp only [List.mem_singleton] at hx
        exact ⟨Example.podIn PodPending [], by rw [hx], by decide⟩)
      rfl).2⟩

/-- Counterexample to C3 as stated: on a cluster that refuses to create the pod, `run` returns
an error that is not `errRun`; the check of `RunSucceeds` returns it, a non-nil error, and the
check of `RunFails` returns it too, not nil. -/
theorem RunFails_negation_counterexample :
    (run Example.kubeNoCreate Example.ctx "busybox" "probe" ["true"] none ()).1.1 =
      .returned ([], some (.errorf "failed to create pod: forbidden")) ∧
    (RunSucceeds Example.kubeNoCreate "busybox" "probe" ["true"] none Example.ctx () []).1.1 =
      .returned (some (.errorf "failed to create pod: forbidden")) ∧
    (RunFails Example.kubeNoCreate "busybox" "probe" ["true"] none Example.ctx () []).1.1 =
      .returned (some (.errorf "failed to create pod: forbidden")) ∧
    ¬ ((RunFails Example.kubeNoCreate "busybox" "probe" ["true"] none Example.ctx () []).1.1 =
        .returned none ↔
      ∃ e, (RunSucceeds Example.kubeNoCreate "busybox" "probe" ["true"] none
        Example.ctx () []).1.1 = .returned (some e)) := by
  have hrun : run Example.kubeNoCreate Example.ctx "busybox" "probe" ["true"] none () =
      ((.returned ([], some (.errorf "failed to create pod: forbidden")),
        Example.ctx.AddFinalizer (fun w => Example.kubeNoCreate.PodsDelete "default" "probe" w)),
        ()) := by
    simp [run, Example.kubeNoCreate, Example.kube, GoError.Error]
  have hs : RunSucceeds Example.kubeNoCreate "busybox" "probe" ["true"] none Example.ctx () [] =
      ((.returned (some (.errorf "failed to create pod: forbidden")),
        Example.ctx.AddFinalizer (fun w => Example.kubeNoCreate.PodsDelete "default" "probe" w)),
        (), []) := by
    simp [RunSucceeds, hrun]
  have hf : RunFails Example.kubeNoCreate "busybox" "probe" ["true"] none Example.ctx () [] =
      ((.returned (some (.errorf "failed to create pod: forbidden")),
        Example.ctx.AddFinalizer (fun w => Example.kubeNoCreate.PodsDelete "default" "probe" w)),
        (), []) := by
    simp [RunFails, hrun, errRun]
  rw [hrun, hs, hf]
  refine ⟨rfl, rfl, rfl, ?_⟩
  simp

/-- C3, amended: when `run` returns `(logs, err)` with `err` nil or the sentinel `errRun`, the
check of `RunFails` returns nil if and only if the check of `RunSucceeds` returns a non-nil
error; when `err` is any other error, both checks return that error. -/
theorem RunFails_negation_on_sentinel {σ : Type} (client : KubeInterface σ)
    (image name : String) (command : List String) (opts : Option RunOptions)
    (ctx : ScenarioContext σ) (w : σ) (stderr : Bytes) (logs : Bytes) (err : Option GoError)
    (hrun : (run client ctx image name command opts w).1.1 = .returned (logs, err)) :
    ((err = none ∨ err = some errRun) →
      ((RunFails client image name command opts ctx w stderr).1.1 = .returned none ↔
        ∃ e, (RunSucceeds client image name command opts ctx w stderr).1.1 =
          .returned (some e))) ∧
    (∀ e, err = some e → e ≠ errRun →
      (RunFails client image name command opts ctx w stderr).1.1 = .returned (some e) ∧
      (RunSucceeds client image name command opts ctx w stderr).1.1 = .returned (some e)) := by
  rcases hr : run client ctx image name command opts w with ⟨⟨out, ctx1⟩, w1⟩
  rw [hr] at hrun
  simp only at hrun
  subst hrun
  cases err with
  | none =>
    refine ⟨fun _ => ?_, fun e he _ => by simp at he⟩
    simp [RunFails, RunSucceeds, hr]
  | some e0 =>
    by_cases he0 : e0 = errRun
    · refine ⟨fun _ => ?_, fun e he hne => ?_⟩
      · simp [RunFails, RunSucceeds, hr, he0]
      · simp only [Option.some.injEq] at he
        exact absurd (he ▸ he0) hne
    · refine ⟨fun h => ?_, fun e he _ => ?_⟩
      · rcases h with h | h
        · simp at h
        · simp only [Option.some.injEq] at h
          exact absurd h he0
      · simp only [Option.some.injEq] at he
        subst he
        simp [RunFails, RunSucceeds, hr, he0]

/-- Witness of C3, amended: a run whose pod fails returns `errRun`; the check of `RunFails`
returns nil and the check of `RunSucceeds` returns a non-nil error. -/
theorem RunFails_negation_on_sentinel_witness :
    (RunFails (Example.kube [] [{ Object := .pod (Example.podIn PodFailed []) }] [7, 8])
        "busybox" "probe" ["false"] none Example.ctx () []).1.1 = .returned none ↔
      ∃ e, (RunSucceeds (Example.kube [] [{ Object := .pod (Example.podIn PodFailed []) }] [7, 8])
        "busybox" "probe" ["false"] none Example.ctx () []).1.1 = .returned (some e) :=
  (RunFails_negation_on_sentinel
    (Example.kube [] [{ Object := .pod (Example.podIn PodFailed []) }] [7, 8])
    "busybox" "probe" ["false"] none Example.ctx () [] [7, 8] (some errRun) rfl).1 (Or.inr rfl)

/-- The loop body returns the finalizer of a manifest that is created. -/
theorem CreatedManifests.body_of_succeeds {σ : Type} (d : Deps σ) (client : Uclient.Client)
    (path : String) (w w3 : σ) (f : Finalizer σ)
    (h : CreatedManifests.Succeeds d client path w f w3) :
    CreatedManifests.body d client path w = (.ok f, w3) := by
  obtain ⟨content, u, c, created, w1, w2, hread, hne, hdecode, hresolve, hcreate, hf⟩ := h
  subst hf
  simp only [CreatedManifests.body, hread, if_neg hne, hdecode, hresolve, hcreate]

/-- The loop body returns the error of a manifest that fails. -/
theorem CreatedManifests.body_of_fails {σ : Type} (d : Deps σ) (client : Uclient.Client)
    (path : String) (w wf : σ) (err : GoError)
    (h : CreatedManifests.Fails d client path w err wf) :
    CreatedManifests.body d client path w = (.error err, wf) := by
  rcases h with hread | ⟨content, hread, hempty, herr⟩ | ⟨content, hread, hne, hdecode⟩ |
    ⟨content, u, w1, hread, hne, hdecode, hresolve⟩ |
    ⟨content, u, c, w1, w2, hread, hne, hdecode, hresolve, hcreate⟩
  · simp only [CreatedManifests.body, hread]
  · subst herr
    simp only [CreatedManifests.body, hread, if_pos hempty]
  · simp only [CreatedManifests.body, hread, if_neg hne, hdecode]
  · simp only [CreatedManifests.body, hread, if_neg hne, hdecode, hresolve]
  · simp only [CreatedManifests.body, hread, if_neg hne, hdecode, hresolve, hcreate]

/-- Every manifest is either created or fails. -/
theorem CreatedManifests.succeeds_or_fails {σ : Type} (d : Deps σ) (client : Uclient.Client)
    (path : String) (w : σ) :
    (∃ f w3, CreatedManifests.Succeeds d client path w f w3) ∨
    (∃ err wf, CreatedManifests.Fails d client path w err wf) := by
  rcases hread : d.ReadFile path w with ⟨rd, w1⟩
  cases rd with
  | error err => exact Or.inr ⟨err, w1, Or.inl hread⟩
  | ok content =>
    by_cases hlen : content.length = 0
    · exact Or.inr ⟨_, w1, Or.inr (Or.inl ⟨content, hread, hlen, rfl⟩)⟩
    · cases hdecode : d.Decode content with
      | error err => exact Or.inr ⟨err, w1, Or.inr (Or.inr (Or.inl ⟨content, hread, hlen, hdecode⟩))⟩
      | ok u =>
        rcases hresolve : Uclient.ForUnstructured d.uclient client u w1 with ⟨rs, w2⟩
        cases rs with
        | error err =>
          exact Or.inr ⟨err, w2, Or.inr (Or.inr (Or.inr (Or.inl
            ⟨content, u, w1, hread, hlen, hdecode, hresolve⟩)))⟩
        | ok c =>
          rcases hcreate : c.Create u w2 with ⟨cr, w3⟩
          cases cr with
          | error err =>
            exact Or.inr ⟨err, w3, Or.inr (Or.inr (Or.inr (Or.inr
              ⟨content, u, c, w1, w2, hread, hlen, hdecode, hresolve, hcreate⟩)))⟩
          | ok created =>
            exact Or.inl ⟨_, w3, content, u, c, created, w1, w2, hread, hlen, hdecode, hresolve,
              hcreate, rfl⟩

/-- One finalizer is registered per created manifest. -/
theorem CreatedManifests.Created.length_eq {σ : Type} {d : Deps σ} {client : Uclient.Client}
    {paths : List String} {w w1 : σ} {fs : List (Finalizer σ)}
    (h : CreatedManifests.Created d client paths w fs w1) : fs.length = paths.length := by
  induction h with
  | nil w => rfl
  | cons path rest w w1 w2 f fs hfirst hrest ih => simp [ih]

/-- After the manifests of an initial segment are created, the loop goes on with the remaining
paths, in the context extended by the finalizers of the segment. -/
theorem CreatedManifests.loop_append {σ : Type} (d : Deps σ) (client : Uclient.Client)
    (done rest : List String) (w w1 : σ) (fs : List (Finalizer σ))
    (h : CreatedManifests.Created d client done w fs w1) (ctx : ScenarioContext σ) :
    CreatedManifests.loop d client (done ++ rest) ctx w =
      CreatedManifests.loop d client rest
        { ctx with Finalizers := ctx.Finalizers ++ fs } w1 := by
  induction h generalizing ctx with
  | nil w => simp
  | cons path tail w w1 w2 f fs hfirst htail ih =>
    have hbody := CreatedManifests.body_of_succeeds d client path w w1 f hfirst
    have hstep : CreatedManifests.loop d client (path :: (tail ++ rest)) ctx w =
        CreatedManifests.loop d client (tail ++ rest) (ctx.AddFinalizer f) w1 := by
      simp only [CreatedManifests.loop, hbody]
    rw [List.cons_append, hstep, ih]
    simp [ScenarioContext.AddFinalizer]

/-- Either every manifest is created, or there is a first manifest that fails. -/
theorem CreatedManifests.created_or_failed {σ : Type} (d : Deps σ) (client : Uclient.Client)
    (paths : List String) (w : σ) :
    (∃ fs w1, CreatedManifests.Created d client paths w fs w1) ∨
    (∃ done path rest fs w1 err w2, paths = done ++ path :: rest ∧
      CreatedManifests.Created d client done w fs w1 ∧
      CreatedManifests.Fails d client path w1 err w2) := by
  induction paths generalizing w with
  | nil => exact Or.inl ⟨[], w, .nil w⟩
  | cons path rest ih =>
    rcases CreatedManifests.succeeds_or_fails d client path w with ⟨f, w1, hfirst⟩ | ⟨err, w1, hfail⟩
    · rcases ih w1 with ⟨fs, w2, hall⟩ | ⟨done, p, tail, fs, w2, err, w3, hsplit, hdone, hfail⟩
      · exact Or.inl ⟨f :: fs, w2, .cons path rest w w1 w2 f fs hfirst hall⟩
      · exact Or.inr ⟨path :: done, p, tail, f :: fs, w2, err, w3, by simp [hsplit],
          .cons path done w w1 w2 f fs hfirst hdone, hfail⟩
    · exact Or.inr ⟨[], path, rest, [], w, err, w1, rfl, .nil w, hfail⟩

/-- C4: the `Setup` of `CreatedManifests` goes through the paths in order, whatever the outcomes
of reading, decoding, resolving and creating each manifest are.  A manifest is created when its
file is read and not empty, its content decodes, its handle is resolved and the create call
succeeds; it fails when one of these steps fails.  When every manifest is created the `Setup`
returns nil and the context holds its former finalizers followed by one finalizer per path, in
path order, each deleting the created object by name.  When the manifests of an initial segment
are created and the next one fails, it returns the error of the failing step of that manifest,
the context holds its former finalizers followed by one finalizer per manifest of the segment,
in path order, and the world is the one the failing step left: no later manifest is attempted.
One of the two cases always applies. -/
theorem CreatedManifests_stops_at_first_failure {σ : Type} (d : Deps σ) (config : Config)
    (paths : List String) (ctx : ScenarioContext σ) (w : σ) :
    (∀ fs w1, CreatedManifests.Created d (Uclient.NewForConfig config) paths w fs w1 →
      CreatedManifests d config paths ctx w =
        ((none, { ctx with Finalizers := ctx.Finalizers ++ fs }), w1) ∧
      fs.length = paths.length) ∧
    (∀ done path rest fs w1 err w2, paths = done ++ path :: rest →
      CreatedManifests.Created d (Uclient.NewForConfig config) done w fs w1 →
      CreatedManifests.Fails d (Uclient.NewForConfig config) path w1 err w2 →
      CreatedManifests d config paths ctx w =
        ((some err, { ctx with Finalizers := ctx.Finalizers ++ fs }), w2) ∧
      fs.length = done.length) ∧
    ((∃ fs w1, CreatedManifests.Created d (Uclient.NewForConfig config) paths w fs w1) ∨
      (∃ done path rest fs w1 err w2, paths = done ++ path :: rest ∧
        CreatedManifests.Created d (Uclient.NewForConfig config) done w fs w1 ∧
        CreatedManifests.Fails d (Uclient.NewForConfig config) path w1 err w2)) := by
  refine ⟨?_, ?_, CreatedManifests.created_or_failed d _ paths w⟩
  · intro fs w1 hall
    refine ⟨?_, hall.length_eq⟩
    have h := CreatedManifests.loop_append d (Uclient.NewForConfig config) paths [] w w1 fs
      hall ctx
    simp only [List.append_nil] at h
    simp only [CreatedManifests, h, CreatedManifests.loop]
  · intro done path rest fs w1 err w2 hsplit hdone hfail
    refine ⟨?_, hdone.length_eq⟩
    subst hsplit
    have h := CreatedManifests.loop_append d (Uclient.NewForConfig config) done (path :: rest)
      w w1 fs hdone ctx
    have hbody := CreatedManifests.body_of_fails d (Uclient.NewForConfig config) path w1 w2 err
      hfail
    simp only [CreatedManifests, h, CreatedManifests.loop, hbody]

/-- Witness of C4: the first manifest is created, the second file is empty, and the third path
is not attempted; a manifest of a kind that is not served fails at the resolution of its
handle; and two manifests that are both created. -/
theorem CreatedManifests_stops_at_first_failure_witness :
    CreatedManifests Example.deps Example.config
        ["resources/service.yaml", "resources/empty.yaml", "resources/job.yaml"]
        Example.ctx () =
      ((some (.errorf "manifest has no content: resources/empty.yaml"),
        { Namespace := "default",
          Finalizers := [fun w => Example.handle.Delete "kube-rbac-proxy" w] }), ()) ∧
    CreatedManifests Example.deps Example.config
        ["resources/service.yaml", "resources/job.yaml", "resources/service.yaml"]
        Example.ctx () =
      ((some (.wrapf
          (.errorf "apiVersion batch/v1 and kind Job not found available in Kubernetes cluster")
          "discovering resource information failed for Job in batch/v1"),
        { Namespace := "default",
          Finalizers := [fun w => Example.handle.Delete "kube-rbac-proxy" w] }), ()) ∧
    CreatedManifests Example.deps Example.config
        ["resources/service.yaml", "resources/service.yaml"] Example.ctx () =
      ((none,
        { Namespace := "default",
          Finalizers := [fun w => Example.handle.Delete "kube-rbac-proxy" w,
            fun w => Example.handle.Delete "kube-rbac-proxy" w] }), ()) := by
  have hservice : CreatedManifests.Succeeds Example.deps (Uclient.NewForConfig Example.config)
      "resources/service.yaml" () (fun w => Example.handle.Delete "kube-rbac-proxy" w) () :=
    ⟨[1], { GetAPIVersion := "v1", GetKind := "Service", GetNamespace := "default",
            GetName := "kube-rbac-proxy" }, Example.handle,
      { GetAPIVersion := "v1", GetKind := "Service", GetNamespace := "default",
        GetName := "kube-rbac-proxy" }, (), (),
      by simp [Example.deps], by simp, by simp [Example.deps],
      by simp [Example.deps, Uclient.ForUnstructured, Uclient.ClientFor,
        Uclient.getAPIResource, Uclient.getAPIResource.outer, Uclient.getAPIResource.inner,
        Uclient.newForConfig, Uclient.setConfigDefaults, Example.uclientDeps, Example.kube,
        Example.catalog, Example.dynamicClient, Uclient.NewForConfig],
      rfl, rfl⟩
  have hempty : CreatedManifests.Fails Example.deps (Uclient.NewForConfig Example.config)
      "resources/empty.yaml" () (.errorf "manifest has no content: resources/empty.yaml") () :=
    Or.inr (Or.inl ⟨[], by simp [Example.deps], rfl, by decide⟩)
  have hjob : CreatedManifests.Fails Example.deps (Uclient.NewForConfig Example.config)
      "resources/job.yaml" ()
      (.wrapf
        (.errorf "apiVersion batch/v1 and kind Job not found available in Kubernetes cluster")
        "discovering resource information failed for Job in batch/v1") () :=
    Or.inr (Or.inr (Or.inr (Or.inl
      ⟨[2], { GetAPIVersion := "batch/v1", GetKind := "Job", GetNamespace := "default",
              GetName := "job" }, (),
        by simp [Example.deps], by simp, by simp [Example.deps],
        by
          simp [Example.deps, Uclient.ForUnstructured, Uclient.ClientFor,
            Uclient.getAPIResource, Uclient.getAPIResource.outer, Uclient.getAPIResource.inner,
            Example.uclientDeps, Example.kube, Example.catalog, Uclient.NewForConfig]⟩)))
  exact ⟨((CreatedManifests_stops_at_first_failure Example.deps Example.config
      ["resources/service.yaml", "resources/empty.yaml", "resources/job.yaml"]
      Example.ctx ()).2.1 ["resources/service.yaml"] "resources/empty.yaml"
      ["resources/job.yaml"] [fun w => Example.handle.Delete "kube-rbac-proxy" w] ()
      (.errorf "manifest has no content: resources/empty.yaml") () rfl
      (.cons _ _ _ _ _ _ _ hservice (.nil ())) hempty).1,
    ((CreatedManifests_stops_at_first_failure Example.deps Example.config
      ["resources/service.yaml", "resources/job.yaml", "resources/service.yaml"]
      Example.ctx ()).2.1 ["resources/service.yaml"] "resources/job.yaml"
      ["resources/service.yaml"] [fun w => Example.handle.Delete "kube-rbac-proxy" w] ()
      _ () rfl (.cons _ _ _ _ _ _ _ hservice (.nil ())) hjob).1,
    ((CreatedManifests_stops_at_first_failure Example.deps Example.config
      ["resources/service.yaml", "resources/service.yaml"] Example.ctx ()).1
      [fun w => Example.handle.Delete "kube-rbac-proxy" w,
        fun w => Example.handle.Delete "kube-rbac-proxy" w] ()
      (.cons _ _ _ _ _ _ _ hservice (.cons _ _ _ _ _ _ _ hservice (.nil ())))).1⟩

end Kubetest
